import Mathlib

/-!
Shallow embedding of the `github-app-authenticator` crate.

Timestamps (`chrono::DateTime<Utc>` observed through `.timestamp()` and
ordering) are modelled as `Int` seconds since the epoch; `chrono::Duration`
is modelled as an `Int` number of seconds.  External collaborators that the
crate treats as opaque (the RSA PEM parser, the JWT signing primitive, the
HTTP transport and the JSON body decoder) are passed in explicitly as
environment records, so each source function becomes a pure Lean function
of its inputs and of the outcomes those collaborators produce.  A call to
`Utc::now()` is modelled as reading a `now : Int` parameter; the clock is
held constant within a single call.
-/

/-- Source `chrono::Duration::seconds`, measured in seconds. -/
def Duration.seconds (s : Int) : Int := s

/-- Source `chrono::Duration::minutes`, measured in seconds. -/
def Duration.minutes (m : Int) : Int := m * 60

/-- Source `src/error.rs`: the error enum `GitHubAuthenticatorError`.
Payloads of the wrapped external error types (`reqwest::Error`,
`jsonwebtoken::errors::Error`, `ParseIntError`) are modelled as their
rendered strings. -/
inductive GitHubAuthenticatorError where
  | Client : String → GitHubAuthenticatorError
  | FailedToDecodeAccessTokenResponse : GitHubAuthenticatorError
  | FailedToGenerateJwt : String → GitHubAuthenticatorError
  | FailedToParseKey : GitHubAuthenticatorError
  | FailedToParseEnvValue : String → GitHubAuthenticatorError
  | InstallationRequestFailed : Nat → GitHubAuthenticatorError
deriving DecidableEq

/-- Source `src/error.rs`: the `thiserror` `Display` implementation
(`#[error("...")]` attributes; the `transparent` variants display their
wrapped cause). -/
def GitHubAuthenticatorError.displayMessage : GitHubAuthenticatorError → String
  | .Client e => "Failed to send request " ++ e
  | .FailedToDecodeAccessTokenResponse => "Failed to decode access token from GitHub"
  | .FailedToGenerateJwt e => e
  | .FailedToParseKey => "Failed to parse private key"
  | .FailedToParseEnvValue e => e
  | .InstallationRequestFailed s => "Installation token request failed " ++ toString s

/-- The JWT signing algorithms of the `jsonwebtoken` crate that matter here. -/
inductive JwtAlgorithm where
  | HS256 : JwtAlgorithm
  | RS256 : JwtAlgorithm
  | ES256 : JwtAlgorithm
deriving DecidableEq

/-- The `jsonwebtoken::Header` as populated by `Header::new(alg)`
(which sets `typ` to `"JWT"`). -/
structure JwtHeader where
  alg : JwtAlgorithm
  typ : Option String
deriving DecidableEq

/-- Source `jsonwebtoken::Header::new`. -/
def JwtHeader.new (alg : JwtAlgorithm) : JwtHeader :=
  { alg := alg, typ := some "JWT" }

/-- Source `src/app.rs`: the claims struct `GitHubAppClaims`
(`iat`/`exp` are epoch seconds, `iss` is the `u32` app id). -/
structure GitHubAppClaims where
  iat : Int
  exp : Int
  iss : Nat
deriving DecidableEq

/-- A compact JWT as produced by `jsonwebtoken::encode`: the header and
claims are serialized into the token and recovered exactly by decoding;
the signature is opaque. -/
structure Jwt where
  header : JwtHeader
  claims : GitHubAppClaims
  signature : String
deriving DecidableEq

/-- Outcomes of the external cryptographic collaborators used by
`generate_jwt`: `EncodingKey::from_rsa_pem` (parsed key modelled as its
DER bytes) and the RS256 signing step inside `jsonwebtoken::encode`. -/
structure JwtEnv where
  from_rsa_pem : List Nat → Except String (List Nat)
  sign : GitHubAppClaims → List Nat → Except String String

/-- Source `src/app.rs`: the `GitHubAppAuthenticator` struct.  The
`reqwest::Client` field is an external collaborator and is not part of the
model; `user_agent` is the header value's string form. -/
structure GitHubAppAuthenticator where
  app_id : Nat
  key : List Nat
  base_endpoint : String
  user_agent : String

/-- Source `src/app.rs`: the default GitHub API base. -/
def GITHUB_API_BASE : String := "https://api.github.com"

/-- Source `GitHubAppAuthenticator::new`: stores the values verbatim and
defaults the base endpoint. -/
def GitHubAppAuthenticator.new (app_id : Nat) (key : List Nat)
    (user_agent : String) : GitHubAppAuthenticator :=
  { app_id := app_id, key := key, base_endpoint := GITHUB_API_BASE,
    user_agent := user_agent }

/-- Source `GitHubAppAuthenticator::with_base_uri`: replaces the base
endpoint (the `&mut self` update is modelled functionally). -/
def GitHubAppAuthenticator.with_base_uri (a : GitHubAppAuthenticator)
    (base_endpoint : String) : GitHubAppAuthenticator :=
  { a with base_endpoint := base_endpoint }

/-- Source `GitHubAppAuthenticator::generate_jwt`: builds the claims from
the clock and the duration, parses the stored PEM bytes, and signs with
RS256.  PEM parse failure maps to `FailedToParseKey`, signing failure to
`FailedToGenerateJwt`. -/
def GitHubAppAuthenticator.generate_jwt (a : GitHubAppAuthenticator)
    (now : Int) (duration : Int) (env : JwtEnv) :
    Except GitHubAuthenticatorError Jwt :=
  match env.from_rsa_pem a.key with
  | .error _ => .error .FailedToParseKey
  | .ok encoding_key =>
    match env.sign { iat := now, exp := now + duration, iss := a.app_id } encoding_key with
    | .error e => .error (.FailedToGenerateJwt e)
    | .ok sig =>
      .ok { header := JwtHeader.new .RS256,
            claims := { iat := now, exp := now + duration, iss := a.app_id },
            signature := sig }

/-- Source `src/app.rs`: the manual `Debug` implementation renders only the
`app_id` field (under the struct name the source passes to
`debug_struct`). -/
def GitHubAppAuthenticator.debugFmt (a : GitHubAppAuthenticator) : String :=
  "GitHubInstallationAuthenticator \x7b app_id: " ++ toString a.app_id ++ " \x7d"

/-- Source `src/permissions.rs`: capability level holding only `Read`. -/
inductive ReadOnly where
  | Read : ReadOnly
deriving DecidableEq

/-- Source `src/permissions.rs`: capability level holding only `Write`. -/
inductive WriteOnly where
  | Write : WriteOnly
deriving DecidableEq

/-- Source `src/permissions.rs`: capability level `Read`/`Write`. -/
inductive ReadWrite where
  | Read : ReadWrite
  | Write : ReadWrite
deriving DecidableEq

/-- Source `src/permissions.rs`: capability level `Read`/`Write`/`Admin`. -/
inductive ReadWriteAdmin where
  | Read : ReadWriteAdmin
  | Write : ReadWriteAdmin
  | Admin : ReadWriteAdmin
deriving DecidableEq

/-- The fragment of JSON values the crate's wire format uses. -/
inductive Json where
  | str : String → Json
  | num : Nat → Json
  | arr : List Json → Json
  | obj : List (String × Json) → Json

/-- Serde serialization of `ReadOnly` under `rename_all = "lowercase"`. -/
def ReadOnly.toJson : ReadOnly → Json
  | .Read => Json.str "read"

/-- Serde serialization of `WriteOnly` under `rename_all = "lowercase"`. -/
def WriteOnly.toJson : WriteOnly → Json
  | .Write => Json.str "write"

/-- Serde serialization of `ReadWrite` under `rename_all = "lowercase"`. -/
def ReadWrite.toJson : ReadWrite → Json
  | .Read => Json.str "read"
  | .Write => Json.str "write"

/-- Serde serialization of `ReadWriteAdmin` under `rename_all = "lowercase"`. -/
def ReadWriteAdmin.toJson : ReadWriteAdmin → Json
  | .Read => Json.str "read"
  | .Write => Json.str "write"
  | .Admin => Json.str "admin"

/-- One optional serde field carrying
`#[serde(skip_serializing_if = "Option::is_none")]`: absent values emit no
entry, present values emit exactly one. -/
def serdeField {α : Type} (name : String) (v : Option α) (ser : α → Json) :
    List (String × Json) :=
  match v with
  | none => []
  | some x => [(name, ser x)]

/-- Source `src/permissions.rs`: the `Permissions` struct, every field an
`Option` skipped when `none`. -/
structure Permissions where
  actions : Option ReadWrite
  administration : Option ReadWrite
  checks : Option ReadWrite
  contents : Option ReadWrite
  deployments : Option ReadWrite
  environments : Option ReadWrite
  issues : Option ReadWrite
  metadata : Option ReadWrite
  packages : Option ReadWrite
  pages : Option ReadWrite
  pull_requests : Option ReadWrite
  repository_hooks : Option ReadWrite
  repository_projects : Option ReadWriteAdmin
  secret_scanning_alerts : Option ReadWrite
  secrets : Option ReadWrite
  security_events : Option ReadWrite
  single_file : Option ReadWrite
  statuses : Option ReadWrite
  vulnerability_alerts : Option ReadWrite
  workflows : Option WriteOnly
  members : Option ReadWrite
  organization_administration : Option ReadWrite
  organization_custom_roles : Option ReadWrite
  organization_announcement_banners : Option ReadWrite
  organization_hooks : Option ReadWrite
  organization_personal_access_tokens : Option ReadWrite
  organization_personal_access_token_requests : Option ReadWrite
  organization_plan : Option ReadOnly
  organization_projects : Option ReadWriteAdmin
  organization_packages : Option ReadWrite
  organization_secrets : Option ReadWrite
  organization_self_hosted_runners : Option ReadWrite
  organization_user_blocking : Option ReadWrite
  team_discussions : Option ReadWrite
deriving DecidableEq

/-- Source `Permissions: Default`: every field unset. -/
def Permissions.default : Permissions :=
  { actions := none, administration := none, checks := none, contents := none,
    deployments := none, environments := none, issues := none,
    metadata := none, packages := none, pages := none, pull_requests := none,
    repository_hooks := none, repository_projects := none,
    secret_scanning_alerts := none, secrets := none, security_events := none,
    single_file := none, statuses := none, vulnerability_alerts := none,
    workflows := none, members := none, organization_administration := none,
    organization_custom_roles := none,
    organization_announcement_banners := none, organization_hooks := none,
    organization_personal_access_tokens := none,
    organization_personal_access_token_requests := none,
    organization_plan := none, organization_projects := none,
    organization_packages := none, organization_secrets := none,
    organization_self_hosted_runners := none,
    organization_user_blocking := none, team_discussions := none }

/-- Serde serialization of `Permissions`: the field list of the emitted
JSON object, in declaration order, with `none` fields skipped. -/
def Permissions.toFields (p : Permissions) : List (String × Json) :=
  serdeField "actions" p.actions ReadWrite.toJson ++
  serdeField "administration" p.administration ReadWrite.toJson ++
  serdeField "checks" p.checks ReadWrite.toJson ++
  serdeField "contents" p.contents ReadWrite.toJson ++
  serdeField "deployments" p.deployments ReadWrite.toJson ++
  serdeField "environments" p.environments ReadWrite.toJson ++
  serdeField "issues" p.issues ReadWrite.toJson ++
  serdeField "metadata" p.metadata ReadWrite.toJson ++
  serdeField "packages" p.packages ReadWrite.toJson ++
  serdeField "pages" p.pages ReadWrite.toJson ++
  serdeField "pull_requests" p.pull_requests ReadWrite.toJson ++
  serdeField "repository_hooks" p.repository_hooks ReadWrite.toJson ++
  serdeField "repository_projects" p.repository_projects ReadWriteAdmin.toJson ++
  serdeField "secret_scanning_alerts" p.secret_scanning_alerts ReadWrite.toJson ++
  serdeField "secrets" p.secrets ReadWrite.toJson ++
  serdeField "security_events" p.security_events ReadWrite.toJson ++
  serdeField "single_file" p.single_file ReadWrite.toJson ++
  serdeField "statuses" p.statuses ReadWrite.toJson ++
  serdeField "vulnerability_alerts" p.vulnerability_alerts ReadWrite.toJson ++
  serdeField "workflows" p.workflows WriteOnly.toJson ++
  serdeField "members" p.members ReadWrite.toJson ++
  serdeField "organization_administration" p.organization_administration ReadWrite.toJson ++
  serdeField "organization_custom_roles" p.organization_custom_roles ReadWrite.toJson ++
  serdeField "organization_announcement_banners" p.organization_announcement_banners ReadWrite.toJson ++
  serdeField "organization_hooks" p.organization_hooks ReadWrite.toJson ++
  serdeField "organization_personal_access_tokens" p.organization_personal_access_tokens ReadWrite.toJson ++
  serdeField "organization_personal_access_token_requests" p.organization_personal_access_token_requests ReadWrite.toJson ++
  serdeField "organization_plan" p.organization_plan ReadOnly.toJson ++
  serdeField "organization_projects" p.organization_projects ReadWriteAdmin.toJson ++
  serdeField "organization_packages" p.organization_packages ReadWrite.toJson ++
  serdeField "organization_secrets" p.organization_secrets ReadWrite.toJson ++
  serdeField "organization_self_hosted_runners" p.organization_self_hosted_runners ReadWrite.toJson ++
  serdeField "organization_user_blocking" p.organization_user_blocking ReadWrite.toJson ++
  serdeField "team_discussions" p.team_discussions ReadWrite.toJson

/-- Serde serialization of `Permissions` as a JSON object. -/
def Permissions.toJson (p : Permissions) : Json :=
  Json.obj p.toFields

/-- Source `src/token.rs`: the `TokenRequest` struct, both fields optional
and skipped when `none`; repository ids are `u32`. -/
structure TokenRequest where
  permissions : Option Permissions
  repositories : Option (List Nat)

/-- Source `TokenRequest: Default`: both fields unset. -/
def TokenRequest.default : TokenRequest :=
  { permissions := none, repositories := none }

/-- Serde serialization of `TokenRequest`: the field list of the emitted
JSON object, with `none` fields skipped. -/
def TokenRequest.toFields (r : TokenRequest) : List (String × Json) :=
  serdeField "permissions" r.permissions Permissions.toJson ++
  serdeField "repositories" r.repositories (fun l => Json.arr (l.map Json.num))

/-- Source `src/installation.rs`: the wire struct
`GitHubInstallationTokenResponse` decoded from a 201 body. -/
structure GitHubInstallationTokenResponse where
  token : String
  expires_at : Int
deriving DecidableEq

/-- Source `src/token.rs`: the cached `GitHubInstallationToken`. -/
structure GitHubInstallationToken where
  access_token : String
  expires_at : Int
deriving DecidableEq

/-- Source `src/token.rs`: `From<GitHubInstallationTokenResponse> for
GitHubInstallationToken` subtracts five minutes from the server-reported
expiry. -/
def GitHubInstallationToken.fromResponse
    (value : GitHubInstallationTokenResponse) : GitHubInstallationToken :=
  { access_token := value.token,
    expires_at := value.expires_at - Duration.minutes 5 }

/-- Source `src/installation.rs`: the `GitHubInstallationAuthenticator`
struct (the `reqwest::Client` field is an external collaborator and not
modelled). -/
structure GitHubInstallationAuthenticator where
  app : GitHubAppAuthenticator
  installation_api_endpoint : String

/-- Source `GitHubInstallationAuthenticator::new`: composes the exchange
URL once, from the app's base endpoint at construction time, and clones
the app authenticator in. -/
def GitHubInstallationAuthenticator.new (app : GitHubAppAuthenticator)
    (installation_id : Nat) : GitHubInstallationAuthenticator :=
  { app := app,
    installation_api_endpoint :=
      app.base_endpoint ++ "/app/installations/" ++ toString installation_id
        ++ "/access_tokens" }

/-- Source `GitHubAppAuthenticator::installation_authenticator`. -/
def GitHubAppAuthenticator.installation_authenticator
    (a : GitHubAppAuthenticator) (installation_id : Nat) :
    GitHubInstallationAuthenticator :=
  GitHubInstallationAuthenticator.new a installation_id

/-- An HTTP response as the exchange sees it: a status code and a body. -/
structure HttpResponse where
  status : Nat
  body_text : String

/-- Outcomes of the external HTTP collaborators during one exchange:
the `send()` of the POST, the `text()` read of the response body, and
`serde_json::from_str` on that body. -/
structure HttpEnv where
  send : Except String HttpResponse
  text : Except String String
  decodeBody : String → Option GitHubInstallationTokenResponse

/-- The result of one `request_token` call together with the number of
HTTP requests it issued. -/
structure RequestOutcome where
  result : Except GitHubAuthenticatorError GitHubInstallationTokenResponse
  sends : Nat

/-- Source `GitHubInstallationAuthenticator::request_token`: mint a
60-second JWT, POST once, and branch on the status: 201 decodes the body
(decode failure becomes `FailedToDecodeAccessTokenResponse`), any other
status becomes `InstallationRequestFailed(status)`; transport errors wrap
as `Client`.  No retry path exists: at most one request is sent. -/
def GitHubInstallationAuthenticator.request_token
    (a : GitHubInstallationAuthenticator) (_request : TokenRequest)
    (now : Int) (jenv : JwtEnv) (henv : HttpEnv) : RequestOutcome :=
  match a.app.generate_jwt now (Duration.seconds 60) jenv with
  | .error e => { result := .error e, sends := 0 }
  | .ok _jwt =>
    match henv.send with
    | .error ce => { result := .error (.Client ce), sends := 1 }
    | .ok response =>
      if response.status = 201 then
        match henv.text with
        | .error ce => { result := .error (.Client ce), sends := 1 }
        | .ok body =>
          match henv.decodeBody body with
          | none => { result := .error .FailedToDecodeAccessTokenResponse, sends := 1 }
          | some tok => { result := .ok tok, sends := 1 }
      else
        { result := .error (.InstallationRequestFailed response.status), sends := 1 }

/-- Source `src/installation.rs`: the refreshing wrapper; the
`Arc<RwLock<Option<GitHubInstallationToken>>>` slot is modelled as the
`Option` it guards. -/
structure RefreshingGitHubInstallationAuthenticator where
  authenticator : GitHubInstallationAuthenticator
  request : TokenRequest
  token : Option GitHubInstallationToken

/-- Source `RefreshingGitHubInstallationAuthenticator::new`: the slot
starts empty. -/
def RefreshingGitHubInstallationAuthenticator.new
    (authenticator : GitHubInstallationAuthenticator)
    (request : TokenRequest) : RefreshingGitHubInstallationAuthenticator :=
  { authenticator := authenticator, request := request, token := none }

/-- Source `GitHubInstallationAuthenticator::into_refreshing`. -/
def GitHubInstallationAuthenticator.into_refreshing
    (a : GitHubInstallationAuthenticator) (request : TokenRequest) :
    RefreshingGitHubInstallationAuthenticator :=
  RefreshingGitHubInstallationAuthenticator.new a request

/-- Source `RefreshingGitHubInstallationAuthenticator::token_expired`:
true when the slot is empty or the cached (already skew-adjusted) expiry
is at or before the clock. -/
def token_expired (slot : Option GitHubInstallationToken) (now : Int) : Bool :=
  match slot with
  | none => true
  | some t => decide (t.expires_at ≤ now)

/-- The observable outcome of one refreshing `access_token()` call: the
returned value (the `Option` records what the final `unwrap` of the slot
read found), the slot afterwards, the number of `request_token`
invocations, and the number of HTTP requests sent. -/
structure CallResult where
  result : Except GitHubAuthenticatorError (Option String)
  slot : Option GitHubInstallationToken
  requests : Nat
  sends : Nat

/-- Source `RefreshingGitHubInstallationAuthenticator::access_token`,
acting on the slot: when `token_expired`, perform one exchange, propagate
its error unchanged leaving the slot alone, or store the skew-adjusted
token; then read the slot back and return the `access_token` it holds. -/
def access_token_step (slot : Option GitHubInstallationToken)
    (a : GitHubInstallationAuthenticator) (request : TokenRequest)
    (now : Int) (jenv : JwtEnv) (henv : HttpEnv) : CallResult :=
  if token_expired slot now then
    match (a.request_token request now jenv henv).result with
    | .error e =>
      { result := .error e, slot := slot, requests := 1,
        sends := (a.request_token request now jenv henv).sends }
    | .ok resp =>
      { result := .ok ((some (GitHubInstallationToken.fromResponse resp)).map
          GitHubInstallationToken.access_token),
        slot := some (GitHubInstallationToken.fromResponse resp), requests := 1,
        sends := (a.request_token request now jenv henv).sends }
  else
    { result := .ok (slot.map GitHubInstallationToken.access_token),
      slot := slot, requests := 0, sends := 0 }

/-- The slot after a sequence of refreshing `access_token()` calls, each
with its own clock reading and collaborator outcomes. -/
def runSlots (a : GitHubInstallationAuthenticator) (request : TokenRequest)
    (slot : Option GitHubInstallationToken) :
    List (Int × JwtEnv × HttpEnv) → Option GitHubInstallationToken
  | [] => slot
  | c :: rest =>
      runSlots a request (access_token_step slot a request c.1 c.2.1 c.2.2).slot rest

/-!
Concrete collaborator environments used by the witnesses: a crypto
environment where parsing and signing succeed, one where PEM parsing
fails, and HTTP environments for a successful 201 exchange and a 404
refusal.
-/

/-- A crypto environment whose PEM parse and signature both succeed. -/
def jenvOk : JwtEnv :=
  { from_rsa_pem := fun k => .ok k, sign := fun _ _ => .ok "sig" }

/-- A crypto environment whose PEM parse fails (garbage key bytes). -/
def jenvBadKey : JwtEnv :=
  { from_rsa_pem := fun _ => .error "InvalidKeyFormat", sign := fun _ _ => .ok "sig" }

/-- An HTTP environment: 201 with a decodable body. -/
def henvOk : HttpEnv :=
  { send := .ok { status := 201, body_text := "body" },
    text := .ok "body",
    decodeBody := fun _ => some { token := "test-token", expires_at := 4000 } }

/-- An HTTP environment: a 404 refusal. -/
def henv404 : HttpEnv :=
  { send := .ok { status := 404, body_text := "" },
    text := .ok "",
    decodeBody := fun _ => none }

/-- An HTTP environment: 201 whose body does not decode. -/
def henvBadBody : HttpEnv :=
  { send := .ok { status := 201, body_text := "not json" },
    text := .ok "not json",
    decodeBody := fun _ => none }

/-- The app authenticator the witnesses use. -/
def appA : GitHubAppAuthenticator := GitHubAppAuthenticator.new 42 [1, 2] "test-agent"

/-- The installation authenticator the witnesses use. -/
def instA : GitHubInstallationAuthenticator := appA.installation_authenticator 99

/-- Claim C2: the cached token stores the server expiry shifted earlier by
exactly five minutes (300 seconds), and the staleness check consults only
that shifted value (it is a function of the stored `expires_at` and the
clock alone). -/
theorem c2_skew_margin :
    ∀ (r : GitHubInstallationTokenResponse),
      (GitHubInstallationToken.fromResponse r).expires_at = r.expires_at - 300 ∧
      (∀ now : Int,
        token_expired (some (GitHubInstallationToken.fromResponse r)) now
          = decide (r.expires_at - 300 ≤ now)) ∧
      (∀ (t t' : GitHubInstallationToken) (now : Int),
        t.expires_at = t'.expires_at →
        token_expired (some t) now = token_expired (some t') now) := by
  intro r
  refine ⟨?_, ?_, ?_⟩
  · simp [GitHubInstallationToken.fromResponse, Duration.minutes]
  · intro now
    simp [token_expired, GitHubInstallationToken.fromResponse, Duration.minutes]
  · intro t t' now h
    simp [token_expired, h]

/-- Witness for C2 at the server expiry 1000: the cache stores 700, the
staleness check fires at 700, and two cached tokens sharing an expiry are
judged alike. -/
theorem c2_skew_margin_witness :
    (GitHubInstallationToken.fromResponse { token := "t", expires_at := 1000 }).expires_at
        = 1000 - 300 ∧
    token_expired
        (some (GitHubInstallationToken.fromResponse { token := "t", expires_at := 1000 })) 700
      = decide ((1000 : Int) - 300 ≤ 700) ∧
    token_expired (some { access_token := "a", expires_at := 5 }) 4
      = token_expired (some { access_token := "b", expires_at := 5 }) 4 :=
  ⟨(c2_skew_margin { token := "t", expires_at := 1000 }).1,
   (c2_skew_margin { token := "t", expires_at := 1000 }).2.1 700,
   (c2_skew_margin { token := "t", expires_at := 1000 }).2.2
     { access_token := "a", expires_at := 5 } { access_token := "b", expires_at := 5 } 4 rfl⟩

/-- Claim C3: a successfully minted JWT carries `iss` equal to the
configured app id, `iat` equal to the mint-time clock, `exp` equal to
`iat` plus the duration, and a header declaring RS256. -/
theorem c3_jwt_claim_shape :
    ∀ (a : GitHubAppAuthenticator) (now duration : Int) (env : JwtEnv) (jwt : Jwt),
      0 < duration →
      a.generate_jwt now duration env = .ok jwt →
      jwt.claims.iss = a.app_id ∧ jwt.claims.iat = now ∧
      jwt.claims.exp = jwt.claims.iat + duration ∧
      jwt.header.alg = JwtAlgorithm.RS256 ∧ jwt.header = JwtHeader.new .RS256 := by
  intro a now duration env jwt _hd h
  unfold GitHubAppAuthenticator.generate_jwt at h
  cases hp : env.from_rsa_pem a.key with
  | error e => rw [hp] at h; dsimp only at h; exact absurd h (by simp)
  | ok k =>
    rw [hp] at h
    dsimp only at h
    cases hs : env.sign { iat := now, exp := now + duration, iss := a.app_id } k with
    | error e => rw [hs] at h; dsimp only at h; exact absurd h (by simp)
    | ok sig =>
      rw [hs] at h
      dsimp only at h
      injection h with h
      subst h
      exact ⟨rfl, rfl, rfl, rfl, rfl⟩

/-- Witness for C3: minting at clock 100 for 600 seconds under a working
crypto environment yields exactly these claims. -/
theorem c3_jwt_claim_shape_witness :
    (Jwt.mk (JwtHeader.new .RS256) (GitHubAppClaims.mk 100 700 42) "sig").claims.iss
        = appA.app_id ∧
    (Jwt.mk (JwtHeader.new .RS256) (GitHubAppClaims.mk 100 700 42) "sig").claims.iat = 100 ∧
    (Jwt.mk (JwtHeader.new .RS256) (GitHubAppClaims.mk 100 700 42) "sig").claims.exp
        = (Jwt.mk (JwtHeader.new .RS256) (GitHubAppClaims.mk 100 700 42) "sig").claims.iat + 600 ∧
    (Jwt.mk (JwtHeader.new .RS256) (GitHubAppClaims.mk 100 700 42) "sig").header.alg
        = JwtAlgorithm.RS256 ∧
    (Jwt.mk (JwtHeader.new .RS256) (GitHubAppClaims.mk 100 700 42) "sig").header
        = JwtHeader.new .RS256 :=
  c3_jwt_claim_shape appA 100 600 jenvOk
    (Jwt.mk (JwtHeader.new .RS256) (GitHubAppClaims.mk 100 700 42) "sig")
    (by decide) rfl

/-- The concrete already-expired JWT minted by the C4 counterexample. -/
def jwtNeg : Jwt :=
  Jwt.mk (JwtHeader.new .RS256) (GitHubAppClaims.mk 1000 940 7) "sig"

/-- Counterexample to C4 as stated: with the accepted negative duration
−60 seconds at clock 1000, `generate_jwt` succeeds but the constructed
claims violate `iat ≤ exp`. -/
theorem c4_counterexample_negative_duration :
    (GitHubAppAuthenticator.new 7 [0] "ua").generate_jwt 1000 (Duration.seconds (-60)) jenvOk
        = .ok jwtNeg ∧
    ¬ (jwtNeg.claims.iat ≤ jwtNeg.claims.exp) :=
  ⟨rfl, by decide⟩

/-- Claim C4 (amended): on every successful mint the constructed claims
satisfy `exp − iat = duration`; the inequality `iat ≤ exp` holds exactly
when the caller-supplied duration is non-negative. -/
theorem c4_claims_window :
    ∀ (a : GitHubAppAuthenticator) (now duration : Int) (env : JwtEnv) (jwt : Jwt),
      a.generate_jwt now duration env = .ok jwt →
      jwt.claims.exp - jwt.claims.iat = duration ∧
      (jwt.claims.iat ≤ jwt.claims.exp ↔ 0 ≤ duration) := by
  intro a now duration env jwt h
  unfold GitHubAppAuthenticator.generate_jwt at h
  cases hp : env.from_rsa_pem a.key with
  | error e => rw [hp] at h; dsimp only at h; exact absurd h (by simp)
  | ok k =>
    rw [hp] at h
    dsimp only at h
    cases hs : env.sign { iat := now, exp := now + duration, iss := a.app_id } k with
    | error e => rw [hs] at h; dsimp only at h; exact absurd h (by simp)
    | ok sig =>
      rw [hs] at h
      dsimp only at h
      injection h with h
      subst h
      constructor
      · simp
      · constructor
        · intro hle
          simpa using hle
        · intro hd
          simpa using hd

/-- Witness for the amended C4 at clock 100 and duration 600. -/
theorem c4_claims_window_witness :
    (Jwt.mk (JwtHeader.new .RS256) (GitHubAppClaims.mk 100 700 42) "win").claims.exp
        - (Jwt.mk (JwtHeader.new .RS256) (GitHubAppClaims.mk 100 700 42) "win").claims.iat
        = 600 ∧
    ((Jwt.mk (JwtHeader.new .RS256) (GitHubAppClaims.mk 100 700 42) "win").claims.iat
        ≤ (Jwt.mk (JwtHeader.new .RS256) (GitHubAppClaims.mk 100 700 42) "win").claims.exp
      ↔ (0 : Int) ≤ 600) :=
  c4_claims_window appA 100 600
    { from_rsa_pem := fun k => .ok k, sign := fun _ _ => .ok "win" }
    (Jwt.mk (JwtHeader.new .RS256) (GitHubAppClaims.mk 100 700 42) "win") rfl

/-- Claim C9: the exchange URL is composed at construction from the app's
base endpoint of that moment; `with_base_uri` replaces only the base
endpoint of the app value it is applied to, so authenticators created
before the override keep the old composition and ones created after it use
the new base. -/
theorem c9_endpoint_composition :
    ∀ (app : GitHubAppAuthenticator) (installation_id : Nat) (uri : String),
      (app.installation_authenticator installation_id).installation_api_endpoint
          = app.base_endpoint ++ "/app/installations/" ++ toString installation_id
              ++ "/access_tokens" ∧
      ((app.with_base_uri uri).installation_authenticator installation_id).installation_api_endpoint
          = uri ++ "/app/installations/" ++ toString installation_id ++ "/access_tokens" ∧
      (app.with_base_uri uri).app_id = app.app_id ∧
      (app.with_base_uri uri).key = app.key ∧
      (app.with_base_uri uri).user_agent = app.user_agent ∧
      (app.with_base_uri uri).base_endpoint = uri ∧
      (app.installation_authenticator installation_id).app = app := by
  intro app installation_id uri
  exact ⟨rfl, rfl, rfl, rfl, rfl, rfl, rfl⟩

/-- A successful exchange sent exactly one HTTP request: every `ok`
outcome of `request_token` lies past the single `send`. -/
theorem request_token_ok_sends :
    ∀ (a : GitHubInstallationAuthenticator) (request : TokenRequest) (now : Int)
      (jenv : JwtEnv) (henv : HttpEnv) (resp : GitHubInstallationTokenResponse),
      (a.request_token request now jenv henv).result = .ok resp →
      (a.request_token request now jenv henv).sends = 1 := by
  intro a request now jenv henv resp h
  unfold GitHubInstallationAuthenticator.request_token at h ⊢
  cases hj : a.app.generate_jwt now (Duration.seconds 60) jenv with
  | error e => rw [hj] at h; simp at h
  | ok jwt =>
    dsimp only
    cases hs : henv.send with
    | error ce => rfl
    | ok response =>
      dsimp only
      by_cases h201 : response.status = 201
      · rw [if_pos h201]
        cases ht : henv.text with
        | error ce => rfl
        | ok body =>
          dsimp only
          cases hd : henv.decodeBody body with
          | none => rfl
          | some tok => rfl
      · rw [if_neg h201]

/-- Claim C1: when the slot holds a token whose (skew-adjusted) expiry is
strictly ahead of the clock, the call returns a clone of the cached token
with zero exchanges and zero HTTP requests; in the complementary case —
which is exactly `slot empty or now ≥ expires_at` — one exchange is
performed, and when it succeeds the skew-adjusted token is stored and
returned after one HTTP request. -/
theorem c1_refreshing_access_token :
    ∀ (slot : Option GitHubInstallationToken) (a : GitHubInstallationAuthenticator)
      (request : TokenRequest) (now : Int) (jenv : JwtEnv) (henv : HttpEnv),
      (∀ t, slot = some t → now < t.expires_at →
        access_token_step slot a request now jenv henv
          = { result := .ok (some t.access_token), slot := some t,
              requests := 0, sends := 0 }) ∧
      (token_expired slot now = true ↔
        slot = none ∨ ∃ t, slot = some t ∧ t.expires_at ≤ now) ∧
      (token_expired slot now = true →
        (access_token_step slot a request now jenv henv).requests = 1 ∧
        (∀ resp, (a.request_token request now jenv henv).result = .ok resp →
          access_token_step slot a request now jenv henv
            = { result := .ok (some (GitHubInstallationToken.fromResponse resp).access_token),
                slot := some (GitHubInstallationToken.fromResponse resp),
                requests := 1, sends := 1 })) := by
  intro slot a request now jenv henv
  refine ⟨?_, ?_, ?_⟩
  · intro t hs hlt
    subst hs
    have hfresh : token_expired (some t) now = false := by
      simp [token_expired]
      omega
    simp [access_token_step, hfresh]
  · cases slot with
    | none => simp [token_expired]
    | some t => simp [token_expired]
  · intro hexp
    constructor
    · cases hr : (a.request_token request now jenv henv).result with
      | error e => simp [access_token_step, hexp, hr]
      | ok resp => simp [access_token_step, hexp, hr]
    · intro resp hr
      have hsends := request_token_ok_sends a request now jenv henv resp hr
      simp [access_token_step, hexp, hr, hsends]

/-- Witness for C1: a fresh cached token at clock 50 with expiry 100 is
served from the slot without any exchange. -/
theorem c1_refreshing_access_token_witness :
    access_token_step (some { access_token := "tok", expires_at := 100 })
        instA TokenRequest.default 50 jenvOk henvOk
      = { result := .ok (some "tok"),
          slot := some { access_token := "tok", expires_at := 100 },
          requests := 0, sends := 0 } :=
  (c1_refreshing_access_token (some { access_token := "tok", expires_at := 100 })
      instA TokenRequest.default 50 jenvOk henvOk).1
    { access_token := "tok", expires_at := 100 } rfl (by decide)

/-- Claim C6: whatever error the underlying exchange produces, the
refreshing call propagates it unchanged and leaves the slot exactly as it
was. -/
theorem c6_error_transparency :
    ∀ (slot : Option GitHubInstallationToken) (a : GitHubInstallationAuthenticator)
      (request : TokenRequest) (now : Int) (jenv : JwtEnv) (henv : HttpEnv)
      (e : GitHubAuthenticatorError),
      token_expired slot now = true →
      (a.request_token request now jenv henv).result = .error e →
      (access_token_step slot a request now jenv henv).result = .error e ∧
      (access_token_step slot a request now jenv henv).slot = slot := by
  intro slot a request now jenv henv e hexp herr
  constructor
  · simp [access_token_step, hexp, herr]
  · simp [access_token_step, hexp, herr]

/-- Witness for C6: a 404 refusal surfaces as
`InstallationRequestFailed 404` and the empty slot stays empty. -/
theorem c6_error_transparency_witness :
    (access_token_step none instA TokenRequest.default 0 jenvOk henv404).result
        = .error (.InstallationRequestFailed 404) ∧
    (access_token_step none instA TokenRequest.default 0 jenvOk henv404).slot = none :=
  c6_error_transparency none instA TokenRequest.default 0 jenvOk henv404
    (.InstallationRequestFailed 404) rfl rfl

/-- Claim C5: once a JWT is minted and a response arrives, the exchange
succeeds exactly when the status is 201 and the body decodes; a non-201
status fails with `InstallationRequestFailed` carrying that status, a 201
with an undecodable body fails with `FailedToDecodeAccessTokenResponse`,
and in all these cases exactly one HTTP request was sent (no retry). -/
theorem c5_exchange_status :
    ∀ (a : GitHubInstallationAuthenticator) (request : TokenRequest) (now : Int)
      (jenv : JwtEnv) (henv : HttpEnv) (jwt : Jwt) (r : HttpResponse) (body : String),
      a.app.generate_jwt now (Duration.seconds 60) jenv = .ok jwt →
      henv.send = .ok r →
      henv.text = .ok body →
      ((∃ tok, (a.request_token request now jenv henv).result = .ok tok) ↔
        (r.status = 201 ∧ (henv.decodeBody body).isSome = true)) ∧
      (r.status ≠ 201 →
        (a.request_token request now jenv henv).result
          = .error (.InstallationRequestFailed r.status)) ∧
      (r.status = 201 → henv.decodeBody body = none →
        (a.request_token request now jenv henv).result
          = .error .FailedToDecodeAccessTokenResponse) ∧
      (a.request_token request now jenv henv).sends = 1 := by
  intro a request now jenv henv jwt r body hj hs ht
  by_cases h201 : r.status = 201
  · cases hd : henv.decodeBody body with
    | none =>
      refine ⟨?_, ?_, ?_, ?_⟩
      · simp [GitHubInstallationAuthenticator.request_token, hj, hs, ht, h201, hd]
      · intro hne; exact absurd h201 hne
      · intro _ _
        simp [GitHubInstallationAuthenticator.request_token, hj, hs, ht, h201, hd]
      · simp [GitHubInstallationAuthenticator.request_token, hj, hs, ht, h201, hd]
    | some tok =>
      refine ⟨?_, ?_, ?_, ?_⟩
      · simp [GitHubInstallationAuthenticator.request_token, hj, hs, ht, h201, hd]
      · intro hne; exact absurd h201 hne
      · intro _ hnone; exact absurd hnone (by simp)
      · simp [GitHubInstallationAuthenticator.request_token, hj, hs, ht, h201, hd]
  · refine ⟨?_, ?_, ?_, ?_⟩
    · simp [GitHubInstallationAuthenticator.request_token, hj, hs, h201]
    · intro _
      simp [GitHubInstallationAuthenticator.request_token, hj, hs, h201]
    · intro hq; exact absurd hq h201
    · simp [GitHubInstallationAuthenticator.request_token, hj, hs, h201]

/-- Witness for C5 on the concrete 201-with-decodable-body environment. -/
theorem c5_exchange_status_witness :
    ((∃ tok, (instA.request_token TokenRequest.default 0 jenvOk henvOk).result = .ok tok) ↔
      ((201 : Nat) = 201 ∧ (henvOk.decodeBody "body").isSome = true)) ∧
    ((201 : Nat) ≠ 201 →
      (instA.request_token TokenRequest.default 0 jenvOk henvOk).result
        = .error (.InstallationRequestFailed 201)) ∧
    ((201 : Nat) = 201 → henvOk.decodeBody "body" = none →
      (instA.request_token TokenRequest.default 0 jenvOk henvOk).result
        = .error .FailedToDecodeAccessTokenResponse) ∧
    (instA.request_token TokenRequest.default 0 jenvOk henvOk).sends = 1 :=
  c5_exchange_status instA TokenRequest.default 0 jenvOk henvOk
    (Jwt.mk (JwtHeader.new .RS256) (GitHubAppClaims.mk 0 60 42) "sig")
    { status := 201, body_text := "body" } "body" rfl rfl rfl

/-- Claim C7: an unparsable key always yields the constant
`FailedToParseKey` error — identical error value and identical display
message for any two unparsable key byte sequences, with no key-derived
content in the rendered output — and the `Debug` rendering of the app
authenticator is a function of the `app_id` alone. -/
theorem c7_key_confidentiality :
    ∀ (env : JwtEnv) (k1 k2 : List Nat) (id1 id2 : Nat) (ua1 ua2 : String)
      (now1 now2 d1 d2 : Int) (e1 e2 : String),
      env.from_rsa_pem k1 = .error e1 →
      env.from_rsa_pem k2 = .error e2 →
      (GitHubAppAuthenticator.new id1 k1 ua1).generate_jwt now1 d1 env
          = .error .FailedToParseKey ∧
      (GitHubAppAuthenticator.new id2 k2 ua2).generate_jwt now2 d2 env
          = .error .FailedToParseKey ∧
      (GitHubAppAuthenticator.new id1 k1 ua1).generate_jwt now1 d1 env
          = (GitHubAppAuthenticator.new id2 k2 ua2).generate_jwt now2 d2 env ∧
      (∀ ea eb : GitHubAuthenticatorError,
        (GitHubAppAuthenticator.new id1 k1 ua1).generate_jwt now1 d1 env = .error ea →
        (GitHubAppAuthenticator.new id2 k2 ua2).generate_jwt now2 d2 env = .error eb →
        ea.displayMessage = eb.displayMessage) ∧
      GitHubAuthenticatorError.FailedToParseKey.displayMessage
          = "Failed to parse private key" ∧
      (id1 = id2 →
        (GitHubAppAuthenticator.new id1 k1 ua1).debugFmt
          = (GitHubAppAuthenticator.new id2 k2 ua2).debugFmt) := by
  intro env k1 k2 id1 id2 ua1 ua2 now1 now2 d1 d2 e1 e2 h1 h2
  have g1 : (GitHubAppAuthenticator.new id1 k1 ua1).generate_jwt now1 d1 env
      = .error .FailedToParseKey := by
    simp [GitHubAppAuthenticator.generate_jwt, GitHubAppAuthenticator.new, h1]
  have g2 : (GitHubAppAuthenticator.new id2 k2 ua2).generate_jwt now2 d2 env
      = .error .FailedToParseKey := by
    simp [GitHubAppAuthenticator.generate_jwt, GitHubAppAuthenticator.new, h2]
  refine ⟨g1, g2, g1.trans g2.symm, ?_, rfl, ?_⟩
  · intro ea eb ha hb
    rw [g1] at ha
    rw [g2] at hb
    injection ha with ha
    injection hb with hb
    rw [← ha, ← hb]
  · intro hid
    simp [GitHubAppAuthenticator.debugFmt, GitHubAppAuthenticator.new, hid]

/-- Witness for C7 at two distinct garbage keys and equal app ids. -/
theorem c7_key_confidentiality_witness :
    (GitHubAppAuthenticator.new 5 [0] "ua1").generate_jwt 10 60 jenvBadKey
        = .error .FailedToParseKey ∧
    (GitHubAppAuthenticator.new 5 [9, 9] "ua2").generate_jwt 20 120 jenvBadKey
        = .error .FailedToParseKey ∧
    (GitHubAppAuthenticator.new 5 [0] "ua1").generate_jwt 10 60 jenvBadKey
        = (GitHubAppAuthenticator.new 5 [9, 9] "ua2").generate_jwt 20 120 jenvBadKey ∧
    (∀ ea eb : GitHubAuthenticatorError,
      (GitHubAppAuthenticator.new 5 [0] "ua1").generate_jwt 10 60 jenvBadKey = .error ea →
      (GitHubAppAuthenticator.new 5 [9, 9] "ua2").generate_jwt 20 120 jenvBadKey = .error eb →
      ea.displayMessage = eb.displayMessage) ∧
    GitHubAuthenticatorError.FailedToParseKey.displayMessage
        = "Failed to parse private key" ∧
    ((5 : Nat) = 5 →
      (GitHubAppAuthenticator.new 5 [0] "ua1").debugFmt
        = (GitHubAppAuthenticator.new 5 [9, 9] "ua2").debugFmt) :=
  c7_key_confidentiality jenvBadKey [0] [9, 9] 5 5 "ua1" "ua2" 10 20 60 120
    "InvalidKeyFormat" "InvalidKeyFormat" rfl rfl

/-- The name contribution of one optional field: the spec's notion of "a
field the caller set" (P2), used to compare the serializer against the
spec's words. -/
def presName {α : Type} (name : String) (v : Option α) : List String :=
  if v.isSome then [name] else []

/-- Follows the spec's words (P2): the names of exactly the fields the
caller set, in declaration order. -/
def Permissions.presentFieldNames (p : Permissions) : List String :=
  presName "actions" p.actions ++
  presName "administration" p.administration ++
  presName "checks" p.checks ++
  presName "contents" p.contents ++
  presName "deployments" p.deployments ++
  presName "environments" p.environments ++
  presName "issues" p.issues ++
  presName "metadata" p.metadata ++
  presName "packages" p.packages ++
  presName "pages" p.pages ++
  presName "pull_requests" p.pull_requests ++
  presName "repository_hooks" p.repository_hooks ++
  presName "repository_projects" p.repository_projects ++
  presName "secret_scanning_alerts" p.secret_scanning_alerts ++
  presName "secrets" p.secrets ++
  presName "security_events" p.security_events ++
  presName "single_file" p.single_file ++
  presName "statuses" p.statuses ++
  presName "vulnerability_alerts" p.vulnerability_alerts ++
  presName "workflows" p.workflows ++
  presName "members" p.members ++
  presName "organization_administration" p.organization_administration ++
  presName "organization_custom_roles" p.organization_custom_roles ++
  presName "organization_announcement_banners" p.organization_announcement_banners ++
  presName "organization_hooks" p.organization_hooks ++
  presName "organization_personal_access_tokens" p.organization_personal_access_tokens ++
  presName "organization_personal_access_token_requests" p.organization_personal_access_token_requests ++
  presName "organization_plan" p.organization_plan ++
  presName "organization_projects" p.organization_projects ++
  presName "organization_packages" p.organization_packages ++
  presName "organization_secrets" p.organization_secrets ++
  presName "organization_self_hosted_runners" p.organization_self_hosted_runners ++
  presName "organization_user_blocking" p.organization_user_blocking ++
  presName "team_discussions" p.team_discussions

/-- The keys contributed by one optional serde field are exactly the
spec-side name contribution of that field. -/
theorem map_fst_serdeField {α : Type} (name : String) (v : Option α)
    (ser : α → Json) : (serdeField name v ser).map Prod.fst = presName name v := by
  cases v <;> rfl

/-- A JSON value that is one of the three lowercase permission tokens. -/
def tokenValue (j : Json) : Prop :=
  j = Json.str "read" ∨ j = Json.str "write" ∨ j = Json.str "admin"

/-- Token-valued entries are preserved by list concatenation. -/
theorem tokenValue_append (l1 l2 : List (String × Json))
    (h1 : ∀ nv ∈ l1, tokenValue nv.2) (h2 : ∀ nv ∈ l2, tokenValue nv.2) :
    ∀ nv ∈ l1 ++ l2, tokenValue nv.2 := by
  intro nv h
  rcases List.mem_append.mp h with h | h
  · exact h1 nv h
  · exact h2 nv h

/-- Every entry an optional serde field emits has the serializer's value. -/
theorem tokenValue_serdeField {α : Type} (name : String) (v : Option α)
    (ser : α → Json) (h : ∀ x, tokenValue (ser x)) :
    ∀ nv ∈ serdeField name v ser, tokenValue nv.2 := by
  intro nv hm
  cases v with
  | none => simp [serdeField] at hm
  | some x =>
    simp [serdeField] at hm
    rw [hm]
    exact h x

/-- The `ReadOnly` vocabulary serializes to lowercase tokens. -/
theorem tokenValue_ReadOnly : ∀ x : ReadOnly, tokenValue (ReadOnly.toJson x) := by
  intro x
  cases x
  exact Or.inl rfl

/-- The `WriteOnly` vocabulary serializes to lowercase tokens. -/
theorem tokenValue_WriteOnly : ∀ x : WriteOnly, tokenValue (WriteOnly.toJson x) := by
  intro x
  cases x
  exact Or.inr (Or.inl rfl)

/-- The `ReadWrite` vocabulary serializes to lowercase tokens. -/
theorem tokenValue_ReadWrite : ∀ x : ReadWrite, tokenValue (ReadWrite.toJson x) := by
  intro x
  cases x
  · exact Or.inl rfl
  · exact Or.inr (Or.inl rfl)

/-- The `ReadWriteAdmin` vocabulary serializes to lowercase tokens. -/
theorem tokenValue_ReadWriteAdmin :
    ∀ x : ReadWriteAdmin, tokenValue (ReadWriteAdmin.toJson x) := by
  intro x
  cases x
  · exact Or.inl rfl
  · exact Or.inr (Or.inl rfl)
  · exact Or.inr (Or.inr rfl)

/-- Claim C8: the serialized `Permissions` object carries exactly the keys
of the fields the caller set (in declaration order, nothing else), every
emitted permission value is one of the exact lowercase tokens, the
`TokenRequest` object likewise omits `permissions`/`repositories` when
unset, and each vocabulary member maps to its own lowercase token. -/
theorem c8_wire_omission :
    ∀ (p : Permissions) (r : TokenRequest),
      (p.toFields).map Prod.fst = p.presentFieldNames ∧
      (∀ nv ∈ p.toFields,
        nv.2 = Json.str "read" ∨ nv.2 = Json.str "write" ∨ nv.2 = Json.str "admin") ∧
      ((r.toFields).map Prod.fst
        = presName "permissions" r.permissions ++ presName "repositories" r.repositories) ∧
      ReadOnly.toJson .Read = Json.str "read" ∧
      WriteOnly.toJson .Write = Json.str "write" ∧
      ReadWrite.toJson .Read = Json.str "read" ∧
      ReadWrite.toJson .Write = Json.str "write" ∧
      ReadWriteAdmin.toJson .Read = Json.str "read" ∧
      ReadWriteAdmin.toJson .Write = Json.str "write" ∧
      ReadWriteAdmin.toJson .Admin = Json.str "admin" := by
  intro p r
  refine ⟨?_, ?_, ?_, rfl, rfl, rfl, rfl, rfl, rfl, rfl⟩
  · simp only [Permissions.toFields, Permissions.presentFieldNames,
      List.map_append, map_fst_serdeField]
  · show ∀ nv ∈ p.toFields, tokenValue nv.2
    simp only [Permissions.toFields]
    repeat' apply tokenValue_append
    all_goals
      first
      | exact tokenValue_serdeField _ _ _ tokenValue_ReadOnly
      | exact tokenValue_serdeField _ _ _ tokenValue_WriteOnly
      | exact tokenValue_serdeField _ _ _ tokenValue_ReadWrite
      | exact tokenValue_serdeField _ _ _ tokenValue_ReadWriteAdmin
  · simp only [TokenRequest.toFields, List.map_append, map_fst_serdeField]

/-- The permissions value the C8 witness uses: only `contents: read`. -/
def p8 : Permissions :=
  { Permissions.default with contents := some ReadWrite.Read }

/-- The token request the C8 witness uses. -/
def r8 : TokenRequest :=
  { permissions := some p8, repositories := none }

/-- Witness for C8: the single set field is the single emitted key, the
emitted entry carries the token `"read"`, and the unset `repositories`
field of the request is omitted. -/
theorem c8_wire_omission_witness :
    (p8.toFields).map Prod.fst = p8.presentFieldNames ∧
    (("contents", Json.str "read").2 = Json.str "read" ∨
      ("contents", Json.str "read").2 = Json.str "write" ∨
      ("contents", Json.str "read").2 = Json.str "admin") ∧
    (r8.toFields).map Prod.fst
      = presName "permissions" r8.permissions ++ presName "repositories" r8.repositories :=
  ⟨(c8_wire_omission p8 r8).1,
   (c8_wire_omission p8 r8).2.1 ("contents", Json.str "read")
     (by simp [p8, Permissions.default, Permissions.toFields, serdeField, ReadWrite.toJson]),
   (c8_wire_omission p8 r8).2.2.1⟩

/-- One refreshing call never empties a non-empty slot. -/
theorem access_token_step_mono :
    ∀ (slot : Option GitHubInstallationToken) (a : GitHubInstallationAuthenticator)
      (request : TokenRequest) (now : Int) (jenv : JwtEnv) (henv : HttpEnv),
      slot.isSome = true →
      (access_token_step slot a request now jenv henv).slot.isSome = true := by
  intro slot a request now jenv henv h
  unfold access_token_step
  by_cases hexp : token_expired slot now = true
  · rw [if_pos hexp]
    cases hr : (a.request_token request now jenv henv).result with
    | error e => exact h
    | ok resp => rfl
  · rw [if_neg hexp]
    exact h

/-- Across any sequence of refreshing calls, a non-empty slot stays
non-empty. -/
theorem runSlots_isSome :
    ∀ (a : GitHubInstallationAuthenticator) (request : TokenRequest)
      (calls : List (Int × JwtEnv × HttpEnv)) (slot : Option GitHubInstallationToken),
      slot.isSome = true →
      (runSlots a request slot calls).isSome = true := by
  intro a request calls
  induction calls with
  | nil => intro slot h; exact h
  | cons c rest ih =>
    intro slot h
    exact ih _ (access_token_step_mono slot a request c.1 c.2.1 c.2.2 h)

/-- Claim C10: the slot starts empty, a call either leaves it unchanged or
writes a present token, a non-empty slot can never become empty again (so
after one success it is non-empty across every later call), and every
successful call's final slot read — the `unwrap` at the end of
`access_token` — finds a token. -/
theorem c10_slot_monotone :
    ∀ (a : GitHubInstallationAuthenticator) (request : TokenRequest),
      (RefreshingGitHubInstallationAuthenticator.new a request).token = none ∧
      (a.into_refreshing request).token = none ∧
      ∀ (slot : Option GitHubInstallationToken) (now : Int) (jenv : JwtEnv) (henv : HttpEnv),
        ((access_token_step slot a request now jenv henv).slot = slot ∨
          ∃ t, (access_token_step slot a request now jenv henv).slot = some t) ∧
        (slot.isSome = true →
          (access_token_step slot a request now jenv henv).slot.isSome = true) ∧
        (∀ o, (access_token_step slot a request now jenv henv).result = .ok o →
          o.isSome = true ∧
          (access_token_step slot a request now jenv henv).slot.isSome = true) ∧
        (∀ calls, slot.isSome = true →
          (runSlots a request slot calls).isSome = true) := by
  intro a request
  refine ⟨rfl, rfl, ?_⟩
  intro slot now jenv henv
  refine ⟨?_, access_token_step_mono slot a request now jenv henv, ?_,
    fun calls => runSlots_isSome a request calls slot⟩
  · unfold access_token_step
    by_cases hexp : token_expired slot now = true
    · rw [if_pos hexp]
      cases hr : (a.request_token request now jenv henv).result with
      | error e => exact Or.inl rfl
      | ok resp => exact Or.inr ⟨GitHubInstallationToken.fromResponse resp, rfl⟩
    · rw [if_neg hexp]
      exact Or.inl rfl
  · intro o ho
    unfold access_token_step at ho
    by_cases hexp : token_expired slot now = true
    · rw [if_pos hexp] at ho
      cases hr : (a.request_token request now jenv henv).result with
      | error e =>
        rw [hr] at ho
        exact absurd ho (by simp)
      | ok resp =>
        rw [hr] at ho
        dsimp only at ho
        injection ho with ho
        constructor
        · rw [← ho]; rfl
        · unfold access_token_step
          rw [if_pos hexp, hr]
          rfl
    · rw [if_neg hexp] at ho
      injection ho with ho
      cases hslot : slot with
      | none =>
        rw [hslot] at hexp
        exact absurd rfl hexp
      | some t =>
        rw [hslot] at ho hexp
        constructor
        · rw [← ho]; rfl
        · unfold access_token_step
          rw [if_neg hexp]
          rfl

/-- Witness for C10: the fresh slot is empty; a successful refresh from an
empty slot leaves a present token behind the final read; a non-empty slot
survives a further call. -/
theorem c10_slot_monotone_witness :
    (RefreshingGitHubInstallationAuthenticator.new instA TokenRequest.default).token = none ∧
    ((some "test-token" : Option String).isSome = true ∧
      (access_token_step none instA TokenRequest.default 0 jenvOk henvOk).slot.isSome = true) ∧
    (runSlots instA TokenRequest.default
        (some { access_token := "x", expires_at := 10 })
        [(0, jenvOk, henvOk)]).isSome = true :=
  ⟨(c10_slot_monotone instA TokenRequest.default).1,
   ((c10_slot_monotone instA TokenRequest.default).2.2 none 0 jenvOk henvOk).2.2.1
     (some "test-token") rfl,
   ((c10_slot_monotone instA TokenRequest.default).2.2
       (some { access_token := "x", expires_at := 10 }) 0 jenvOk henvOk).2.2.2
     [(0, jenvOk, henvOk)] rfl⟩
